import Mathlib

/-!
Verification development for the alacritty-mcp server
(protocol dispatcher and instance-registry reconciliation engine).

The Rust sources under src/ are shallowly embedded below:
pure functions become Lean functions, the mutable registry and the
protocol-session flag become explicit state records, and the external
collaborators (process launcher, process-table reader via pgrep and
/proc, the xdotool window resolver and input injector, the capture
service, the editor inspector) are modelled as an explicit environment
record Env of oracle functions, one field per external call site.
Fallible operations return Option or Except String, mirroring
anyhow::Result with its textual error payloads.
-/

/-- types.rs: AlacrittyInstance. Pids and window ids are u32 in the source;
they are modelled as Nat (no arithmetic is ever performed on them). -/
structure AlacrittyInstance where
  id : String
  pid : Nat
  window_id : Option Nat
  title : String
  command : String
  created_at : Nat
deriving DecidableEq, Repr

/-- The environment of external collaborators consumed by the core.
Each field models one external call site of alacritty_manager.rs:
uuid is the Uuid::new_v4 supply (indexed by how many draws happened),
now is SystemTime::now, spawnPid is the pid of Command::spawn for
alacritty (none = launch failure), pgrep is the parsed pid list of
pgrep -f alacritty (none = non-success status, i.e. no processes),
cmdline pid is the NUL-split /proc/pid/cmdline (none = read failure),
findWindow pid class is xdotool search --pid pid --class class,
xdoKey window keys is xdotool key --window (some stderr = failure),
screenshotText / screenshotImage are the capture-service pipelines,
and neovim is the editor inspector (both out of scope per the spec). -/
structure Env where
  uuid : Nat → String
  now : Nat
  spawnPid : Option Nat
  spawnErr : String
  pgrep : Option (List Nat)
  cmdline : Nat → Option (List String)
  findWindow : Nat → String → Option Nat
  xdoKey : Nat → String → Option String
  screenshotText : Nat → Except String String
  screenshotImage : Nat → Except String String
  neovim : Nat → Except String String

/-- The AlacrittyManager state: the HashMap String -> AlacrittyInstance is
modelled as a list of instances keyed by their id field (every insertion in
the source uses instance.id as the key), plus the index of the next draw
from the uuid supply (an explicit counter standing for the fresh-uuid
source). -/
structure MState where
  instances : List AlacrittyInstance
  nextId : Nat
deriving Repr

/-- AlacrittyManager::new. -/
def managerNew : MState := { instances := [], nextId := 0 }

/-- HashMap::insert keyed by inst.id: replaces the entry with that id if
present, otherwise adds the entry. -/
def insertInst (r : List AlacrittyInstance) (inst : AlacrittyInstance) : List AlacrittyInstance :=
  if r.any (fun e => e.id == inst.id) then
    r.map (fun e => if e.id == inst.id then inst else e)
  else r ++ [inst]

/-- types.rs: SpawnParams. -/
structure SpawnParams where
  command : Option String
  args : Option (List String)
  working_directory : Option String
  title : Option String
deriving DecidableEq, Repr

/-- types.rs: SendKeysParams. -/
structure SendKeysParams where
  instance_id : String
  keys : String
deriving DecidableEq, Repr

/-- types.rs: ScreenshotParams. -/
structure ScreenshotParams where
  instance_id : String
  format : Option String
deriving DecidableEq, Repr

/-- AlacrittyManager::get_window_id_for_pid: one xdotool search keyed by the
pid and the process class Alacritty; a missing window yields the error
message built in the source. -/
def get_window_id_for_pid (env : Env) (pid : Nat) : Except String Nat :=
  match env.findWindow pid "Alacritty" with
  | some w => Except.ok w
  | none => Except.error ("Could not find window ID for PID " ++ toString pid)

/-- AlacrittyManager::get_window_id_for_instance: cached handle if present,
otherwise a fresh lookup keyed by the pid of the entry. The method borrows
the manager immutably, so it cannot write anything back. -/
def get_window_id_for_instance (env : Env) (r : List AlacrittyInstance) (instance_id : String) :
    Except String Nat :=
  match r.find? (fun e => e.id == instance_id) with
  | none => Except.error ("Instance not found: " ++ instance_id)
  | some inst =>
    match inst.window_id with
    | some w => Except.ok w
    | none => get_window_id_for_pid env inst.pid

/-- The source method get_window_id_for_instance takes an immutable borrow
(selfstate borrowed as shared), so the registry after the call is the
registry before the call; this pairing makes that post-call registry
explicit so that caching behaviour can be stated. -/
def resolveWindowPost (env : Env) (r : List AlacrittyInstance) (instance_id : String) :
    Except String Nat × List AlacrittyInstance :=
  (get_window_id_for_instance env r instance_id, r)

/-- The instance record built in AlacrittyManager::spawn_instance before
insertion: fresh uuid id, launcher pid, no window handle yet, default title
from a prefix plus the first 8 characters of the id, default command shell,
current timestamp. -/
def spawnInst (env : Env) (s : MState) (params : SpawnParams) (pid : Nat) : AlacrittyInstance :=
  { id := env.uuid s.nextId
    pid := pid
    window_id := none
    title := params.title.getD ("alacritty-mcp-" ++ (env.uuid s.nextId).take 8)
    command := params.command.getD "shell"
    created_at := env.now }

/-- AlacrittyManager::spawn_instance: draw a uuid, launch (none = spawn
failure, propagated as an error), insert the snapshot with window_id none,
then one best-effort window lookup whose success updates the stored entry
(but not the returned snapshot). -/
def spawn_instance (env : Env) (s : MState) (params : SpawnParams) :
    Option AlacrittyInstance × MState :=
  match env.spawnPid with
  | none => (none, { s with nextId := s.nextId + 1 })
  | some pid =>
    let inst := spawnInst env s params pid
    let r1 := insertInst s.instances inst
    match get_window_id_for_instance env r1 (env.uuid s.nextId) with
    | Except.ok w =>
        (some inst,
         { instances := r1.map (fun e =>
             if e.id == env.uuid s.nextId then { e with window_id := some w } else e)
           nextId := s.nextId + 1 })
    | Except.error _ => (some inst, { instances := r1, nextId := s.nextId + 1 })

/-- The while loop of create_instance_from_pid over the NUL-split argument
vector: a title flag or its short alias consumes the following value token,
likewise the command flag; every other token is skipped. -/
def parseCmdline : List String → String → String → String × String
  | [], t, c => (t, c)
  | a :: rest, t, c =>
    if a = "--title" ∨ a = "-t" then
      match rest with
      | v :: rest2 => parseCmdline rest2 v c
      | [] => (t, c)
    else if a = "--command" ∨ a = "-e" then
      match rest with
      | v :: rest2 => parseCmdline rest2 t v
      | [] => (t, c)
    else parseCmdline rest t c

/-- AlacrittyManager::create_instance_from_pid: read and parse the command
line of the process (a read failure aborts without drawing a uuid), default
title alacritty-pid and command shell, synthesize a fresh id from the uuid
supply at index idx, one best-effort window lookup, created_at 0. -/
def createFromPid (env : Env) (pid : Nat) (idx : Nat) : Option AlacrittyInstance :=
  match env.cmdline pid with
  | none => none
  | some rawArgs =>
    let args := rawArgs.filter (fun s => s != "")
    let tc := parseCmdline args ("alacritty-" ++ toString pid) "shell"
    some { id := env.uuid idx
           pid := pid
           window_id := env.findWindow pid "Alacritty"
           title := tc.1
           command := tc.2
           created_at := 0 }

/-- The second phase of refresh_instances: for every live pid not already
tracked, synthesize an entry and insert it; the uuid-supply index advances
once per successful synthesis. -/
def addNew (env : Env) : List Nat → List AlacrittyInstance → Nat → List AlacrittyInstance × Nat
  | [], r, idx => (r, idx)
  | p :: rest, r, idx =>
    if r.any (fun inst => inst.pid == p) then addNew env rest r idx
    else
      match createFromPid env p idx with
      | some inst => addNew env rest (insertInst r inst) (idx + 1)
      | none => addNew env rest r idx

/-- AlacrittyManager::refresh_instances: a failed pgrep status clears the
registry; otherwise retain exactly the entries whose pid is still live, then
add entries for untracked live pids. -/
def refresh_instances (env : Env) (s : MState) : MState :=
  match env.pgrep with
  | none => { s with instances := [] }
  | some pids =>
    let kept := s.instances.filter (fun inst => pids.contains inst.pid)
    let res := addNew env pids kept s.nextId
    { instances := res.1, nextId := res.2 }

/-- AlacrittyManager::list_instances: reconcile, then snapshot. -/
def list_instances (env : Env) (s : MState) : List AlacrittyInstance × MState :=
  let s2 := refresh_instances env s
  (s2.instances, s2)

/-- AlacrittyManager::send_keys: look up the instance (absence is reported
with the offending id in the message), use the cached window handle or fall
back to a fresh lookup, then inject the keys via the injector. -/
def send_keys (env : Env) (r : List AlacrittyInstance) (params : SendKeysParams) :
    Except String Unit :=
  match r.find? (fun e => e.id == params.instance_id) with
  | none => Except.error ("Instance not found: " ++ params.instance_id)
  | some inst =>
    match inst.window_id with
    | some window_id =>
      match env.xdoKey window_id params.keys with
      | none => Except.ok ()
      | some stderr => Except.error ("Failed to send keys: " ++ stderr)
    | none =>
      match get_window_id_for_instance env r params.instance_id with
      | Except.error e => Except.error e
      | Except.ok window_id =>
        match env.xdoKey window_id params.keys with
        | none => Except.ok ()
        | some stderr => Except.error ("Failed to send keys: " ++ stderr)

/-- AlacrittyManager::screenshot_instance: look up the instance (absence is
reported with the offending id in the message), resolve the window handle,
dispatch on the requested format (default text); the capture pipelines
themselves are the out-of-scope capture service, modelled by Env. -/
def screenshot_instance (env : Env) (r : List AlacrittyInstance) (params : ScreenshotParams) :
    Except String String :=
  match r.find? (fun e => e.id == params.instance_id) with
  | none => Except.error ("Instance not found: " ++ params.instance_id)
  | some inst =>
    let wid :=
      match inst.window_id with
      | some w => Except.ok w
      | none => get_window_id_for_instance env r params.instance_id
    match wid with
    | Except.error e => Except.error e
    | Except.ok window_id =>
      let fmt := params.format.getD "text"
      if fmt = "text" then env.screenshotText window_id
      else if fmt = "image" then env.screenshotImage window_id
      else Except.error ("Unsupported format: " ++ fmt)

/-- Modelled from the spec: the struct NeovimContextParams is referenced from
mcp_server.rs but its definition is not under src/. Spec section 6 gives:
required instance_id (string); optional include_diagnostics (bool, default
true), include_buffers (bool, default true), context_lines (integer, 0 to
50, default 5). -/
structure NeovimContextParams where
  instance_id : String
  include_diagnostics : Bool
  include_buffers : Bool
  context_lines : Nat
deriving DecidableEq, Repr

/-- Modelled from the spec: AlacrittyManager::get_neovim_context is called
from mcp_server.rs but its definition is not under src/. Per spec sections
6 and 7, it resolves the tracked instance (absence of a tracked instance is
always reported as InstanceNotFound with the offending id embedded in the
message, regardless of which tool triggered the lookup) and then consults
the out-of-scope remote editor inspector keyed by the pid. -/
def get_neovim_context (env : Env) (r : List AlacrittyInstance) (params : NeovimContextParams) :
    Except String String :=
  match r.find? (fun e => e.id == params.instance_id) with
  | none => Except.error ("Instance not found: " ++ params.instance_id)
  | some inst => env.neovim inst.pid

/-- A structural model of serde_json::Value as far as the dispatcher
inspects it. -/
inductive Json where
  | null : Json
  | bool : Bool → Json
  | num : Int → Json
  | str : String → Json
  | arr : List Json → Json
  | obj : List (String × Json) → Json

/-- Object field lookup (serde_json object indexing). -/
def jLookup (fs : List (String × Json)) (k : String) : Option Json :=
  (fs.find? (fun p => p.1 == k)).map (fun p => p.2)

/-- Value::get with a string index: none on non-objects. -/
def Json.get : Json → String → Option Json
  | Json.obj fs, k => jLookup fs k
  | _, _ => none

/-- Value::as_str. -/
def Json.asStr : Json → Option String
  | Json.str s => some s
  | _ => none

/-- Value::as_object (used to deserialize the free-form capabilities map). -/
def Json.asObj : Json → Option (List (String × Json))
  | Json.obj fs => some fs
  | _ => none

/-- serde deserialization of a required String field: present, non-null,
string-typed. -/
def reqStrField (fs : List (String × Json)) (k : String) : Option String :=
  match jLookup fs k with
  | some (Json.str s) => some s
  | _ => none

/-- serde deserialization of an Option String field: absent or null is None,
a string is Some, any other type is a deserialization error (outer none). -/
def optStrField (fs : List (String × Json)) (k : String) : Option (Option String) :=
  match jLookup fs k with
  | none => some none
  | some Json.null => some none
  | some (Json.str s) => some (some s)
  | some _ => none

/-- A JSON array read as a list of strings; any non-string element is a
deserialization error. -/
def strListOf : List Json → Option (List String)
  | [] => some []
  | Json.str s :: rest => (strListOf rest).map (fun l => s :: l)
  | _ :: _ => none

/-- serde deserialization of an Option (Vec String) field. -/
def optStrListField (fs : List (String × Json)) (k : String) : Option (Option (List String)) :=
  match jLookup fs k with
  | none => some none
  | some Json.null => some none
  | some (Json.arr xs) => (strListOf xs).map (fun l => some l)
  | some _ => none

/-- serde_json::from_value for SpawnParams (all four fields optional). -/
def SpawnParams.fromJson? : Json → Option SpawnParams
  | Json.obj fs =>
    match optStrField fs "command", optStrListField fs "args",
          optStrField fs "working_directory", optStrField fs "title" with
    | some c, some a, some w, some t =>
        some { command := c, args := a, working_directory := w, title := t }
    | _, _, _, _ => none
  | _ => none

/-- serde_json::from_value for SendKeysParams (both fields required). -/
def SendKeysParams.fromJson? : Json → Option SendKeysParams
  | Json.obj fs =>
    match reqStrField fs "instance_id", reqStrField fs "keys" with
    | some i, some k => some { instance_id := i, keys := k }
    | _, _ => none
  | _ => none

/-- serde_json::from_value for ScreenshotParams (instance_id required,
format optional). -/
def ScreenshotParams.fromJson? : Json → Option ScreenshotParams
  | Json.obj fs =>
    match reqStrField fs "instance_id", optStrField fs "format" with
    | some i, some f => some { instance_id := i, format := f }
    | _, _ => none
  | _ => none

/-- types.rs: ClientInfo. -/
structure ClientInfo where
  name : String
  version : String
deriving DecidableEq, Repr

/-- types.rs: InitializeParams (protocolVersion, capabilities, clientInfo
all required; capabilities is a free-form object). -/
structure InitializeParams where
  protocol_version : String
  capabilities : List (String × Json)
  client_info : ClientInfo

/-- serde_json::from_value for ClientInfo. -/
def ClientInfo.fromJson? : Json → Option ClientInfo
  | Json.obj fs =>
    match reqStrField fs "name", reqStrField fs "version" with
    | some n, some v => some { name := n, version := v }
    | _, _ => none
  | _ => none

/-- serde_json::from_value for InitializeParams. -/
def InitializeParams.fromJson? : Json → Option InitializeParams
  | Json.obj fs =>
    match reqStrField fs "protocolVersion", (jLookup fs "capabilities").bind Json.asObj,
          (jLookup fs "clientInfo").bind ClientInfo.fromJson? with
    | some pv, some caps, some ci =>
        some { protocol_version := pv, capabilities := caps, client_info := ci }
    | _, _, _ => none
  | _ => none

/-- Modelled from the spec: serde deserialization of an optional boolean
field with a default (used by the missing NeovimContextParams). -/
def optBoolField (fs : List (String × Json)) (k : String) (dflt : Bool) : Option Bool :=
  match jLookup fs k with
  | none => some dflt
  | some (Json.bool b) => some b
  | some _ => none

/-- Modelled from the spec: serde deserialization of the bounded integer
field context_lines (0 to 50, default 5) of the missing NeovimContextParams. -/
def optNatField (fs : List (String × Json)) (k : String) (dflt : Nat) : Option Nat :=
  match jLookup fs k with
  | none => some dflt
  | some (Json.num n) => if 0 ≤ n ∧ n ≤ 50 then some n.toNat else none
  | some _ => none

/-- Modelled from the spec: deserialization of the missing
NeovimContextParams per the schema in spec section 6. -/
def NeovimContextParams.fromJson? : Json → Option NeovimContextParams
  | Json.obj fs =>
    match reqStrField fs "instance_id", optBoolField fs "include_diagnostics" true,
          optBoolField fs "include_buffers" true, optNatField fs "context_lines" 5 with
    | some i, some d, some b, some c =>
        some { instance_id := i, include_diagnostics := d, include_buffers := b,
               context_lines := c }
    | _, _, _, _ => none
  | _ => none

/-- types.rs: JsonRpcRequest. -/
structure JsonRpcRequest where
  jsonrpc : String
  method : String
  params : Option Json
  id : Option Json

/-- types.rs: JsonRpcError. -/
structure JsonRpcError where
  code : Int
  message : String
  data : Option Json

/-- types.rs: JsonRpcResponse. -/
structure JsonRpcResponse where
  jsonrpc : String
  result : Option Json
  error : Option JsonRpcError
  id : Option Json

/-- The error-response record built at every error site of mcp_server.rs. -/
def errResp (code : Int) (message : String) (id : Option Json) : JsonRpcResponse :=
  { jsonrpc := "2.0", result := none, error := some { code := code, message := message, data := none }, id := id }

/-- The success-response record built at every success site of mcp_server.rs. -/
def okResp (result : Json) (id : Option Json) : JsonRpcResponse :=
  { jsonrpc := "2.0", result := some result, error := none, id := id }

/-- types.rs: Tool. -/
structure Tool where
  name : String
  description : String
  input_schema : Json

/-- serde serialization of a Tool. -/
def Tool.toJson (t : Tool) : Json :=
  Json.obj [("name", Json.str t.name), ("description", Json.str t.description),
            ("input_schema", t.input_schema)]

/-- McpServer::get_tools: the fixed tool catalogue with its declared
argument schemas (quotation marks inside two description strings are
omitted). -/
def getTools : List Tool :=
  [ { name := "list_instances"
      description := "List all running Alacritty terminal instances"
      input_schema := Json.obj
        [("type", Json.str "object"), ("properties", Json.obj []),
         ("additionalProperties", Json.bool false)] },
    { name := "spawn_instance"
      description := "Spawn a new Alacritty terminal instance"
      input_schema := Json.obj
        [("type", Json.str "object"),
         ("properties", Json.obj
           [("command", Json.obj
              [("type", Json.str "string"),
               ("description", Json.str "Command to run in the terminal")]),
            ("args", Json.obj
              [("type", Json.str "array"),
               ("items", Json.obj [("type", Json.str "string")]),
               ("description", Json.str "Arguments for the command")]),
            ("working_directory", Json.obj
              [("type", Json.str "string"),
               ("description", Json.str "Working directory for the terminal")]),
            ("title", Json.obj
              [("type", Json.str "string"),
               ("description", Json.str "Title for the terminal window")])]),
         ("additionalProperties", Json.bool false)] },
    { name := "send_keys"
      description := "Send key commands to an Alacritty instance"
      input_schema := Json.obj
        [("type", Json.str "object"),
         ("properties", Json.obj
           [("instance_id", Json.obj
              [("type", Json.str "string"),
               ("description", Json.str "ID of the Alacritty instance")]),
            ("keys", Json.obj
              [("type", Json.str "string"),
               ("description", Json.str "Keys to send (xdotool format, e.g., ctrl+c, Return, Hello)")])]),
         ("required", Json.arr [Json.str "instance_id", Json.str "keys"]),
         ("additionalProperties", Json.bool false)] },
    { name := "screenshot_instance"
      description := "Take a screenshot of an Alacritty instance"
      input_schema := Json.obj
        [("type", Json.str "object"),
         ("properties", Json.obj
           [("instance_id", Json.obj
              [("type", Json.str "string"),
               ("description", Json.str "ID of the Alacritty instance")]),
            ("format", Json.obj
              [("type", Json.str "string"),
               ("enum", Json.arr [Json.str "text", Json.str "image"]),
               ("description", Json.str "Format of the screenshot: text for terminal text content, image for visual screenshot"),
               ("default", Json.str "text")])]),
         ("required", Json.arr [Json.str "instance_id"]),
         ("additionalProperties", Json.bool false)] },
    { name := "get_neovim_context"
      description := "Extract comprehensive Neovim context including cursor position, diagnostics, open buffers, and LSP status"
      input_schema := Json.obj
        [("type", Json.str "object"),
         ("properties", Json.obj
           [("instance_id", Json.obj
              [("type", Json.str "string"),
               ("description", Json.str "ID of the Alacritty instance running Neovim")]),
            ("include_diagnostics", Json.obj
              [("type", Json.str "boolean"),
               ("description", Json.str "Include LSP diagnostics in the context"),
               ("default", Json.bool true)]),
            ("include_buffers", Json.obj
              [("type", Json.str "boolean"),
               ("description", Json.str "Include list of open buffers"),
               ("default", Json.bool true)]),
            ("context_lines", Json.obj
              [("type", Json.str "number"),
               ("description", Json.str "Number of lines around cursor to include"),
               ("default", Json.num 5),
               ("minimum", Json.num 0),
               ("maximum", Json.num 50)])]),
         ("required", Json.arr [Json.str "instance_id"]),
         ("additionalProperties", Json.bool false)] } ]

/-- mcp_server.rs: the server state, an AlacrittyManager plus the
handshake flag. -/
structure McpSrv where
  manager : MState
  initialized : Bool

/-- McpServer::new. -/
def serverNew : McpSrv := { manager := managerNew, initialized := false }

/-- Models serde_json::to_string_pretty on an AlacrittyInstance (the
whitespace layout and string escaping of the pretty printer are
abstracted; field order follows the struct declaration). -/
def renderInstance (i : AlacrittyInstance) : String :=
  "\x7b \"id\": \"" ++ i.id ++ "\", \"pid\": " ++ toString i.pid ++ ", \"window_id\": " ++
  (match i.window_id with | none => "null" | some w => toString w) ++
  ", \"title\": \"" ++ i.title ++ "\", \"command\": \"" ++ i.command ++ "\", \"created_at\": " ++
  toString i.created_at ++ " \x7d"

/-- Models serde_json::to_string_pretty on a Vec of instances. -/
def renderInstances (l : List AlacrittyInstance) : String :=
  "[" ++ String.intercalate ", " (l.map renderInstance) ++ "]"

/-- The result payload wrapping of a successful tools/call: a single text
content block. -/
def contentResult (content : String) : Json :=
  Json.obj [("content", Json.arr [Json.obj [("type", Json.str "text"), ("text", Json.str content)]])]

/-- The tool handlers of mcp_server.rs (handle_list_instances,
handle_spawn_instance, handle_send_keys, handle_screenshot_instance,
handle_get_neovim_context) together with the tool-name dispatch of
handle_tools_call: each handler deserializes its argument payload and then
delegates to the manager; the pair returned is the Result and the manager
state after the call (only list_instances and spawn_instance take the
manager mutably). The single quotes the source puts around keys in the
send_keys success text are omitted. -/
def dispatchTool (env : Env) (m : MState) (tool_name : String) (args : Json) :
    Except String String × MState :=
  if tool_name = "list_instances" then
    let s2 := refresh_instances env m
    (Except.ok ("Found " ++ toString s2.instances.length ++ " Alacritty instances:\n" ++
       renderInstances s2.instances), s2)
  else if tool_name = "spawn_instance" then
    match SpawnParams.fromJson? args with
    | none => (Except.error "Invalid spawn parameters", m)
    | some p =>
      match spawn_instance env m p with
      | (none, m2) => (Except.error env.spawnErr, m2)
      | (some inst, m2) =>
          (Except.ok ("Spawned new Alacritty instance:\n" ++ renderInstance inst), m2)
  else if tool_name = "send_keys" then
    match SendKeysParams.fromJson? args with
    | none => (Except.error "Invalid send keys parameters", m)
    | some p =>
      match send_keys env m.instances p with
      | Except.error e => (Except.error e, m)
      | Except.ok _ => (Except.ok ("Sent keys " ++ p.keys ++ " to instance " ++ p.instance_id), m)
  else if tool_name = "screenshot_instance" then
    match ScreenshotParams.fromJson? args with
    | none => (Except.error "Invalid screenshot parameters", m)
    | some p =>
      match screenshot_instance env m.instances p with
      | Except.error e => (Except.error e, m)
      | Except.ok shot =>
        let fmt := p.format.getD "text"
        if fmt = "text" then
          (Except.ok ("Screenshot text from instance " ++ p.instance_id ++ ":\n" ++ shot), m)
        else if fmt = "image" then
          (Except.ok ("Screenshot image from instance " ++ p.instance_id ++ " (base64): " ++ shot), m)
        else (Except.error ("Unsupported format: " ++ fmt), m)
  else if tool_name = "get_neovim_context" then
    match NeovimContextParams.fromJson? args with
    | none => (Except.error "Invalid neovim context parameters", m)
    | some p =>
      match get_neovim_context env m.instances p with
      | Except.error e => (Except.error e, m)
      | Except.ok ctx =>
          (Except.ok ("Neovim context for instance " ++ p.instance_id ++ ":\n" ++ ctx), m)
  else (Except.error ("Unknown tool: " ++ tool_name), m)

/-- The result payload of a successful handshake. -/
def initResult : Json :=
  Json.obj [("protocolVersion", Json.str "2024-11-05"),
            ("capabilities", Json.obj [("tools", Json.arr (getTools.map Tool.toJson))]),
            ("serverInfo", Json.obj [("name", Json.str "alacritty-mcp"),
                                     ("version", Json.str "0.1.0")])]

/-- McpServer::handle_initialize: a well-formed descriptor flips the
session flag and returns the capabilities; a malformed one is rejected
with invalid-params and leaves the state unchanged. -/
def handleInit (srv : McpSrv) (params : Option Json) (id : Option Json) :
    JsonRpcResponse × McpSrv :=
  match params.bind InitializeParams.fromJson? with
  | some _ => (okResp initResult id, { srv with initialized := true })
  | none => (errResp (-32602) "Invalid initialize params" id, srv)

/-- The result payload of tools/list. -/
def toolsListResult : Json := Json.obj [("tools", Json.arr (getTools.map Tool.toJson))]

/-- McpServer::handle_tools_list: lifecycle gate, then the catalogue. -/
def handle_tools_list (srv : McpSrv) (id : Option Json) : JsonRpcResponse :=
  if !srv.initialized then errResp (-32002) "Server not initialized" id
  else okResp toolsListResult id

/-- McpServer::handle_tools_call: lifecycle gate, presence of the params
object, presence of a string tool name, then dispatch; a missing arguments
object defaults to an empty object; a tool failure of any kind is wrapped
with code -32603. -/
def handle_tools_call (env : Env) (srv : McpSrv) (params : Option Json) (id : Option Json) :
    JsonRpcResponse × McpSrv :=
  if !srv.initialized then (errResp (-32002) "Server not initialized" id, srv)
  else
    match params with
    | none => (errResp (-32602) "Missing call parameters" id, srv)
    | some call_params =>
      match (call_params.get "name").bind Json.asStr with
      | none => (errResp (-32602) "Missing tool name" id, srv)
      | some tool_name =>
        match dispatchTool env srv.manager tool_name ((call_params.get "arguments").getD (Json.obj [])) with
        | (Except.ok content, m2) => (okResp (contentResult content) id, { srv with manager := m2 })
        | (Except.error e, m2) => (errResp (-32603) e id, { srv with manager := m2 })

/-- McpServer::handle_request on an already-decoded envelope: route on the
method name; anything outside the three known methods is answered with
method-not-found -32601 and no state change. -/
def handle_request (env : Env) (srv : McpSrv) (req : JsonRpcRequest) :
    JsonRpcResponse × McpSrv :=
  if req.method = "initialize" then handleInit srv req.params req.id
  else if req.method = "tools/list" then (handle_tools_list srv req.id, srv)
  else if req.method = "tools/call" then handle_tools_call env srv req.params req.id
  else (errResp (-32601) ("Method not found: " ++ req.method) req.id, srv)

/-- One iteration of the transport loop of main.rs for one non-empty input
line, fed with the outcome of decoding the line into a request envelope
(none = serde decode failure). A decode failure makes handle_request
return Err, and main writes back the literal error envelope built in
main.rs: code -32603 with a null id (the serde diagnostic appended to the
message is abstracted); the loop itself never terminates on a request
failure. -/
def processLine (env : Env) (srv : McpSrv) (decoded : Option JsonRpcRequest) :
    JsonRpcResponse × McpSrv :=
  match decoded with
  | some req => handle_request env srv req
  | none =>
    ({ jsonrpc := "2.0", result := none,
       error := some { code := -32603, message := "Invalid JSON-RPC request", data := none },
       id := none }, srv)

/-- No two tracked entries share a pid (executable form of the registry
invariant claimed in the spec data model). -/
def pidsDistinct : List AlacrittyInstance → Bool
  | [] => true
  | e :: rest => (!rest.any (fun f => f.pid == e.pid)) && pidsDistinct rest

/-- The uuid supply never collides with an id already in the registry from
the current index on (true of any state actually built by drawing ids from
the supply, since version-4 uuids are fresh). -/
def FreshIds (env : Env) (r : List AlacrittyInstance) (idx : Nat) : Prop :=
  ∀ e ∈ r, ∀ n, idx ≤ n → e.id ≠ env.uuid n

theorem insertInst_fresh (r : List AlacrittyInstance) (inst : AlacrittyInstance)
    (h : ∀ e ∈ r, e.id ≠ inst.id) : insertInst r inst = r ++ [inst] := by
  have hany : r.any (fun e => e.id == inst.id) = false := by
    simp only [List.any_eq_false, beq_iff_eq]
    exact h
  simp [insertInst, hany]

theorem self_mem_insertInst (r : List AlacrittyInstance) (inst : AlacrittyInstance) :
    inst ∈ insertInst r inst := by
  by_cases h : r.any (fun e => e.id == inst.id) = true
  · obtain ⟨e, he, hid⟩ := List.any_eq_true.mp h
    simp only [insertInst, h, if_true]
    exact List.mem_map.mpr ⟨e, he, by simp [hid]⟩
  · have h' : r.any (fun e => e.id == inst.id) = false := by simpa using h
    simp [insertInst, h']

theorem find?_of_all_false (p : AlacrittyInstance → Bool) :
    ∀ (r : List AlacrittyInstance), (∀ e ∈ r, p e = false) → ∀ x, p x = true →
      (r ++ [x]).find? p = some x := by
  intro r
  induction r with
  | nil => intro _ x hx; simp [hx]
  | cons a r ih =>
    intro h x hx
    have ha := h a (by simp)
    simp only [List.cons_append, List.find?_cons, ha, cond_false]
    exact ih (fun e he => h e (by simp [he])) x hx


theorem find?_map_replace (i : String) (inst : AlacrittyInstance) (hin : inst.id = i) :
    ∀ (r : List AlacrittyInstance), (∃ e ∈ r, (e.id == i) = true) →
      ((r.map (fun e => if e.id == i then inst else e)).find? (fun e => e.id == i) = some inst) := by
  intro r
  induction r with
  | nil => rintro ⟨e, he, _⟩; cases he
  | cons a r ih =>
    rintro ⟨e, he, hid⟩
    by_cases ha : (a.id == i) = true
    · have himg : (if (a.id == i) then inst else a) = inst := by simp [ha]
      rw [List.map_cons, himg, List.find?_cons_of_pos]
      simp [hin]
    · have ha' : (a.id == i) = false := by simpa using ha
      have himg : (if (a.id == i) then inst else a) = a := by simp [ha']
      rw [List.map_cons, himg, List.find?_cons_of_neg]
      · rcases List.mem_cons.mp he with rfl | hr
        · rw [hid] at ha'; cases ha'
        · exact ih ⟨e, hr, hid⟩
      · simp [ha']

theorem find?_insertInst (r : List AlacrittyInstance) (inst : AlacrittyInstance) :
    (insertInst r inst).find? (fun e => e.id == inst.id) = some inst := by
  by_cases h : r.any (fun e => e.id == inst.id) = true
  · obtain ⟨e, he, hid⟩ := List.any_eq_true.mp h
    simp only [insertInst, h, if_true]
    exact find?_map_replace inst.id inst rfl r ⟨e, he, hid⟩
  · have h' : r.any (fun e => e.id == inst.id) = false := by simpa using h
    have hall : ∀ e ∈ r, (fun e => e.id == inst.id) e = false := by
      intro e he
      simpa using List.any_eq_false.mp h' e he
    simp only [insertInst, h', Bool.false_eq_true, if_false]
    exact find?_of_all_false _ r hall inst (by simp)

theorem createFromPid_eq_none (env : Env) (pid idx : Nat) :
    createFromPid env pid idx = none ↔ env.cmdline pid = none := by
  cases h : env.cmdline pid <;> simp [createFromPid, h]

theorem createFromPid_fields (env : Env) (pid idx : Nat) (inst : AlacrittyInstance)
    (h : createFromPid env pid idx = some inst) :
    inst.id = env.uuid idx ∧ inst.pid = pid ∧ inst.created_at = 0 := by
  cases hc : env.cmdline pid
  · simp [createFromPid, hc] at h
  · simp only [createFromPid, hc, Option.some.injEq] at h
    refine ⟨?_, ?_, ?_⟩ <;> simp [← h]

theorem pidsDistinct_map (f : AlacrittyInstance → AlacrittyInstance)
    (hf : ∀ e, (f e).pid = e.pid) :
    ∀ r, pidsDistinct (r.map f) = pidsDistinct r := by
  intro r
  induction r with
  | nil => rfl
  | cons a r ih =>
    simp only [List.map_cons, pidsDistinct, List.any_map, ih, hf]
    have hcomp : ((fun g => g.pid == a.pid) ∘ f) = (fun g => g.pid == a.pid) := by
      funext x
      simp [Function.comp, hf]
    rw [hcomp]

theorem pidsDistinct_append_singleton (inst : AlacrittyInstance) :
    ∀ r, pidsDistinct r = true → (∀ e ∈ r, e.pid ≠ inst.pid) →
      pidsDistinct (r ++ [inst]) = true := by
  intro r
  induction r with
  | nil => intro _ _; simp [pidsDistinct]
  | cons a r ih =>
    intro hd hne
    simp only [pidsDistinct, Bool.and_eq_true, Bool.not_eq_true'] at hd
    have hgoal : (a :: r) ++ [inst] = a :: (r ++ [inst]) := rfl
    rw [hgoal]
    simp only [pidsDistinct, Bool.and_eq_true, Bool.not_eq_true']
    constructor
    · rw [List.any_eq_false]
      intro e he
      rcases List.mem_append.mp he with h1 | h2
      · simpa using List.any_eq_false.mp hd.1 e h1
      · have heq : e = inst := by simpa using h2
        intro hcontr
        have hpe : e.pid = a.pid := by simpa using hcontr
        rw [heq] at hpe
        exact hne a (by simp) hpe.symm
    · exact ih hd.2 (fun e he => hne e (by simp [he]))

theorem any_filter_false (q p : AlacrittyInstance → Bool) (r : List AlacrittyInstance)
    (h : r.any p = false) : (r.filter q).any p = false := by
  rw [List.any_eq_false] at h ⊢
  intro e he
  exact h e (List.mem_filter.mp he).1

theorem pidsDistinct_filter (q : AlacrittyInstance → Bool) :
    ∀ r, pidsDistinct r = true → pidsDistinct (r.filter q) = true := by
  intro r
  induction r with
  | nil => intro h; simpa using h
  | cons a r ih =>
    intro hd
    simp only [pidsDistinct, Bool.and_eq_true, Bool.not_eq_true'] at hd
    rw [List.filter_cons]
    by_cases hq : q a = true
    · rw [if_pos hq]
      simp only [pidsDistinct, Bool.and_eq_true, Bool.not_eq_true']
      exact ⟨any_filter_false q _ r hd.1, ih hd.2⟩
    · rw [if_neg hq]
      exact ih hd.2

theorem addNew_nil (env : Env) (r : List AlacrittyInstance) (idx : Nat) :
    addNew env [] r idx = (r, idx) := rfl

theorem addNew_cons (env : Env) (p : Nat) (rest : List Nat) (r : List AlacrittyInstance)
    (idx : Nat) :
    addNew env (p :: rest) r idx =
      if r.any (fun inst => inst.pid == p) then addNew env rest r idx
      else
        match createFromPid env p idx with
        | some inst => addNew env rest (insertInst r inst) (idx + 1)
        | none => addNew env rest r idx := rfl

/-- Structure of one reconciliation addition pass under a collision-free
uuid supply: already-tracked entries survive unchanged and in place, every
added entry is for a live pid with created_at 0, every live pid ends up
tracked unless its command line is unreadable, freshness is maintained, and
pid-distinctness is preserved. -/
theorem addNew_spec (env : Env)
    (hinj : ∀ i j : Nat, i ≠ j → env.uuid i ≠ env.uuid j) :
    ∀ (pids : List Nat) (r : List AlacrittyInstance) (idx : Nat),
      FreshIds env r idx →
      ∃ new : List AlacrittyInstance,
        addNew env pids r idx = (r ++ new, idx + new.length) ∧
        (∀ e ∈ new, e.pid ∈ pids ∧ e.created_at = 0) ∧
        (∀ p ∈ pids, (∃ e ∈ r ++ new, e.pid = p) ∨ env.cmdline p = none) ∧
        FreshIds env (r ++ new) (idx + new.length) ∧
        (pidsDistinct r = true → pidsDistinct (r ++ new) = true) := by
  intro pids
  induction pids with
  | nil =>
    intro r idx hf
    refine ⟨[], by simp [addNew_nil], by simp, by simp, ?_, by simp⟩
    simp only [List.append_nil, Nat.add_zero]
    exact hf
  | cons p rest ih =>
    intro r idx hf
    by_cases htr : r.any (fun inst => inst.pid == p) = true
    · obtain ⟨e0, he0, hpe0⟩ := List.any_eq_true.mp htr
      have hpe0' : e0.pid = p := by simpa using hpe0
      obtain ⟨new, heq, hnew, hcov, hfr, hpd⟩ := ih r idx hf
      refine ⟨new, ?_, ?_, ?_, hfr, hpd⟩
      · rw [addNew_cons, if_pos htr]
        exact heq
      · intro e he
        exact ⟨List.mem_cons_of_mem _ (hnew e he).1, (hnew e he).2⟩
      · intro q hq
        rcases List.mem_cons.mp hq with rfl | hq'
        · exact Or.inl ⟨e0, List.mem_append.mpr (Or.inl he0), hpe0'⟩
        · exact hcov q hq'
    · cases hc : createFromPid env p idx with
      | none =>
        have hcl : env.cmdline p = none := (createFromPid_eq_none env p idx).mp hc
        obtain ⟨new, heq, hnew, hcov, hfr, hpd⟩ := ih r idx hf
        refine ⟨new, ?_, ?_, ?_, hfr, hpd⟩
        · rw [addNew_cons, if_neg htr]
          simp only [hc]
          exact heq
        · intro e he
          exact ⟨List.mem_cons_of_mem _ (hnew e he).1, (hnew e he).2⟩
        · intro q hq
          rcases List.mem_cons.mp hq with rfl | hq'
          · exact Or.inr hcl
          · exact hcov q hq'
      | some inst =>
        obtain ⟨hid, hpidinst, hcreated⟩ := createFromPid_fields env p idx inst hc
        have hfreshinst : ∀ e ∈ r, e.id ≠ inst.id := by
          intro e he
          rw [hid]
          exact hf e he idx (Nat.le_refl idx)
        have hins : insertInst r inst = r ++ [inst] := insertInst_fresh r inst hfreshinst
        have hf' : FreshIds env (r ++ [inst]) (idx + 1) := by
          intro e he n hn
          rcases List.mem_append.mp he with h1 | h2
          · exact hf e h1 n (by omega)
          · have he' : e = inst := by simpa using h2
            rw [he', hid]
            exact hinj idx n (by omega)
        obtain ⟨new', heq, hnew, hcov, hfr, hpd⟩ := ih (r ++ [inst]) (idx + 1) hf'
        have hshape : (r ++ [inst]) ++ new' = r ++ inst :: new' := by simp
        refine ⟨inst :: new', ?_, ?_, ?_, ?_, ?_⟩
        · rw [addNew_cons, if_neg htr]
          simp only [hc]
          rw [hins, heq]
          have h2 : (idx + 1) + new'.length = idx + (inst :: new').length := by
            simp only [List.length_cons]
            omega
          rw [hshape, h2]
        · intro e he
          rcases List.mem_cons.mp he with rfl | h'
          · constructor
            · rw [hpidinst]
              exact List.mem_cons_self _ _
            · exact hcreated
          · obtain ⟨hp1, hp2⟩ := hnew e h'
            exact ⟨List.mem_cons_of_mem _ hp1, hp2⟩
        · intro q hq
          rcases List.mem_cons.mp hq with rfl | hq'
          · refine Or.inl ⟨inst, ?_, hpidinst⟩
            exact List.mem_append.mpr (Or.inr (List.mem_cons_self _ _))
          · rcases hcov q hq' with ⟨e, he, hpe⟩ | hnone
            · refine Or.inl ⟨e, ?_, hpe⟩
              rw [← hshape]
              exact he
            · exact Or.inr hnone
        · intro e he n hn
          have hmem : e ∈ (r ++ [inst]) ++ new' := by
            rw [hshape]
            exact he
          have hn' : (idx + 1) + new'.length ≤ n := by
            simp only [List.length_cons] at hn
            omega
          exact hfr e hmem n hn'
        · intro hpdr
          have h1 : pidsDistinct (r ++ [inst]) = true := by
            apply pidsDistinct_append_singleton inst r hpdr
            intro e he hcontr
            have htrf : r.any (fun inst => inst.pid == p) = false := Bool.eq_false_iff.mpr htr
            exact (List.any_eq_false.mp htrf e he) (by simp [hcontr, hpidinst])
          have h2 := hpd h1
          rwa [hshape] at h2

/-- When every live pid is either already tracked or has an unreadable
command line, the addition pass changes nothing. -/
theorem addNew_noop (env : Env) :
    ∀ (pids : List Nat) (r : List AlacrittyInstance) (idx : Nat),
      (∀ p ∈ pids, (∃ e ∈ r, e.pid = p) ∨ env.cmdline p = none) →
      addNew env pids r idx = (r, idx) := by
  intro pids
  induction pids with
  | nil => intro r idx _; exact addNew_nil env r idx
  | cons p rest ih =>
    intro r idx h
    rcases h p (List.mem_cons_self _ _) with ⟨e, he, hpe⟩ | hcl
    · have htr : r.any (fun inst => inst.pid == p) = true :=
        List.any_eq_true.mpr ⟨e, he, by simp [hpe]⟩
      rw [addNew_cons, if_pos htr]
      exact ih r idx (fun q hq => h q (List.mem_cons_of_mem _ hq))
    · by_cases htr : r.any (fun inst => inst.pid == p) = true
      · rw [addNew_cons, if_pos htr]
        exact ih r idx (fun q hq => h q (List.mem_cons_of_mem _ hq))
      · have hc : createFromPid env p idx = none := (createFromPid_eq_none env p idx).mpr hcl
        rw [addNew_cons, if_neg htr]
        simp only [hc]
        exact ih r idx (fun q hq => h q (List.mem_cons_of_mem _ hq))

/-- Structure of one reconciliation (refresh_instances) under a
collision-free uuid supply whose pgrep succeeded: the surviving prefix is
exactly the filter of the old registry by liveness, additions are discovered
live processes, every live pid with a readable command line ends up tracked,
freshness and pid-distinctness are preserved. -/
theorem refresh_spec (env : Env) (s : MState) (live : List Nat)
    (hp : env.pgrep = some live)
    (hinj : ∀ i j : Nat, i ≠ j → env.uuid i ≠ env.uuid j)
    (hfresh : FreshIds env s.instances s.nextId) :
    ∃ new : List AlacrittyInstance,
      (refresh_instances env s).instances
        = s.instances.filter (fun inst => live.contains inst.pid) ++ new ∧
      (refresh_instances env s).nextId = s.nextId + new.length ∧
      (∀ e ∈ new, e.pid ∈ live ∧ e.created_at = 0) ∧
      (∀ p ∈ live, (∃ e ∈ (refresh_instances env s).instances, e.pid = p) ∨
        env.cmdline p = none) ∧
      FreshIds env (refresh_instances env s).instances ((refresh_instances env s).nextId) ∧
      (pidsDistinct s.instances = true →
        pidsDistinct (refresh_instances env s).instances = true) := by
  have hkf : FreshIds env (s.instances.filter (fun inst => live.contains inst.pid)) s.nextId := by
    intro e he n hn
    exact hfresh e (List.mem_filter.mp he).1 n hn
  obtain ⟨new, heq, hnew, hcov, hfr, hpd⟩ :=
    addNew_spec env hinj live (s.instances.filter (fun inst => live.contains inst.pid)) s.nextId hkf
  have hri : (refresh_instances env s).instances
      = s.instances.filter (fun inst => live.contains inst.pid) ++ new := by
    simp only [refresh_instances, hp]
    rw [heq]
  have hrn : (refresh_instances env s).nextId = s.nextId + new.length := by
    simp only [refresh_instances, hp]
    rw [heq]
  refine ⟨new, hri, hrn, hnew, ?_, ?_, ?_⟩
  · intro p hpm
    rw [hri]
    exact hcov p hpm
  · rw [hri, hrn]
    exact hfr
  · intro hps
    rw [hri]
    exact hpd (pidsDistinct_filter _ s.instances hps)

/-- A state all of whose entries are live and all of whose live pids are
either tracked or unreadable is a fixed point of reconciliation. -/
theorem refresh_fixed (env : Env) (live : List Nat) (hp : env.pgrep = some live) (s1 : MState)
    (hall : ∀ e ∈ s1.instances, live.contains e.pid = true)
    (hcov : ∀ p ∈ live, (∃ e ∈ s1.instances, e.pid = p) ∨ env.cmdline p = none) :
    refresh_instances env s1 = s1 := by
  have hfilter : s1.instances.filter (fun inst => live.contains inst.pid) = s1.instances :=
    List.filter_eq_self.mpr hall
  have hnoop := addNew_noop env live s1.instances s1.nextId hcov
  simp only [refresh_instances, hp]
  rw [hfilter, hnoop]

/-- C2: for every registry state and fixed live-pid snapshot, reconciliation
never mutates or replaces an already-tracked entry whose pid is still alive
(the survivors are exactly the liveness filter of the old registry, kept
verbatim and in place, and everything else appended is a newly discovered
entry), and running list() twice with no change in the live-pid set yields
identical registry contents both times. The hypotheses say the version-4
uuid supply is collision-free and fresh for the current state, which holds
of every state actually built by drawing from the supply. -/
theorem c2_reconciliation_idempotent (env : Env) (s : MState) (live : List Nat)
    (hp : env.pgrep = some live)
    (hinj : ∀ i j : Nat, i ≠ j → env.uuid i ≠ env.uuid j)
    (hfresh : FreshIds env s.instances s.nextId) :
    (∃ new, (refresh_instances env s).instances
        = s.instances.filter (fun inst => live.contains inst.pid) ++ new ∧
        ∀ e ∈ new, e.pid ∈ live ∧ e.created_at = 0) ∧
    (∀ inst ∈ s.instances, live.contains inst.pid = true →
        inst ∈ (refresh_instances env s).instances) ∧
    refresh_instances env (refresh_instances env s) = refresh_instances env s ∧
    (list_instances env ((list_instances env s).2)).1 = (list_instances env s).1 := by
  obtain ⟨new, hi, hn, hnew, hcov, hfr, hpd⟩ := refresh_spec env s live hp hinj hfresh
  have hall : ∀ e ∈ (refresh_instances env s).instances, live.contains e.pid = true := by
    intro e he
    rw [hi] at he
    rcases List.mem_append.mp he with h1 | h2
    · exact (List.mem_filter.mp h1).2
    · simpa using (hnew e h2).1
  have hidem : refresh_instances env (refresh_instances env s) = refresh_instances env s :=
    refresh_fixed env live hp _ hall hcov
  refine ⟨⟨new, hi, hnew⟩, ?_, hidem, ?_⟩
  · intro inst hm hc
    rw [hi]
    exact List.mem_append.mpr (Or.inl (List.mem_filter.mpr ⟨hm, hc⟩))
  · simp only [list_instances]
    rw [hidem]

/-- C3: reconciliation removes exactly the tracked entries whose pid is
absent from the live set; every tracked entry with a live pid survives as
the very same record (in particular with the same id). -/
theorem c3_garbage_collection_exact (env : Env) (s : MState) (live : List Nat)
    (hp : env.pgrep = some live)
    (hinj : ∀ i j : Nat, i ≠ j → env.uuid i ≠ env.uuid j)
    (hfresh : FreshIds env s.instances s.nextId) :
    (∀ inst ∈ s.instances, live.contains inst.pid = true →
        inst ∈ (refresh_instances env s).instances) ∧
    (∀ inst ∈ s.instances, live.contains inst.pid = false →
        inst ∉ (refresh_instances env s).instances) := by
  obtain ⟨new, hi, hn, hnew, hcov, hfr, hpd⟩ := refresh_spec env s live hp hinj hfresh
  constructor
  · intro inst hm hc
    rw [hi]
    exact List.mem_append.mpr (Or.inl (List.mem_filter.mpr ⟨hm, hc⟩))
  · intro inst hm hc hmem
    rw [hi] at hmem
    rcases List.mem_append.mp hmem with h1 | h2
    · have h := (List.mem_filter.mp h1).2
      rw [hc] at h
      simp at h
    · have h : live.contains inst.pid = true := by simpa using (hnew inst h2).1
      rw [hc] at h
      simp at h

/-- A concrete collision-free uuid supply for witnesses: uuids of distinct
indices have distinct lengths. -/
def uuidW (n : Nat) : String := String.mk (List.replicate (n + 1) 'a')

theorem uuidW_inj : ∀ i j : Nat, i ≠ j → uuidW i ≠ uuidW j := by
  intro i j hne heq
  apply hne
  have h := congrArg String.length heq
  simpa [uuidW, String.length] using h

/-- A concrete environment for witnesses: no live processes, every external
lookup fails. -/
def envW : Env :=
  { uuid := uuidW
    now := 0
    spawnPid := none
    spawnErr := "No such file or directory"
    pgrep := some []
    cmdline := fun _ => none
    findWindow := fun _ _ => none
    xdoKey := fun _ _ => none
    screenshotText := fun _ => Except.error "Failed to get clipboard content"
    screenshotImage := fun _ => Except.error "Failed to take screenshot"
    neovim := fun _ => Except.error "no inspector" }

theorem c2_witness :
    refresh_instances envW (refresh_instances envW managerNew) = refresh_instances envW managerNew :=
  (c2_reconciliation_idempotent envW managerNew [] rfl uuidW_inj
    (fun e he => absurd he (List.not_mem_nil e))).2.2.1

/-- A concrete environment for the C3 witness: one live pid 3. -/
def envW3 : Env := { envW with pgrep := some [3] }

/-- A concrete tracked entry with pid 3 whose id (the empty string) is
outside the range of the witness uuid supply. -/
def instW : AlacrittyInstance :=
  { id := "", pid := 3, window_id := none, title := "t", command := "c", created_at := 7 }

/-- A concrete registry state holding exactly instW. -/
def stW : MState := { instances := [instW], nextId := 0 }

theorem stW_fresh : FreshIds envW3 stW.instances stW.nextId := by
  intro e he n hn heq
  have he' : e = instW := by simpa [stW] using he
  rw [he'] at heq
  have hd := congrArg String.length heq
  simp [instW, envW3, envW, uuidW, String.length] at hd

theorem c3_witness : instW ∈ (refresh_instances envW3 stW).instances :=
  (c3_garbage_collection_exact envW3 stW [3] rfl uuidW_inj stW_fresh).1 instW
    (by simp [stW]) (by rfl)

theorem spawn_preserves_distinct (env : Env) (s : MState) (params : SpawnParams)
    (hpid : ∀ p, env.spawnPid = some p → ∀ e ∈ s.instances, e.pid ≠ p)
    (hid : ∀ e ∈ s.instances, e.id ≠ env.uuid s.nextId)
    (hd : pidsDistinct s.instances = true) :
    pidsDistinct ((spawn_instance env s params).2).instances = true := by
  cases hsp : env.spawnPid with
  | none =>
    simp only [spawn_instance, hsp]
    exact hd
  | some pid =>
    have hins : insertInst s.instances (spawnInst env s params pid)
        = s.instances ++ [spawnInst env s params pid] := by
      apply insertInst_fresh
      intro e he
      exact hid e he
    have hpd1 : pidsDistinct (s.instances ++ [spawnInst env s params pid]) = true := by
      apply pidsDistinct_append_singleton _ _ hd
      intro e he
      exact hpid pid hsp e he
    simp only [spawn_instance, hsp]
    cases hw : get_window_id_for_instance env
        (insertInst s.instances (spawnInst env s params pid)) (env.uuid s.nextId) with
    | ok w =>
      simp only [hw]
      have hmap := pidsDistinct_map
        (fun e => if e.id == env.uuid s.nextId then { e with window_id := some w } else e)
        (by
          intro e
          by_cases h : (e.id == env.uuid s.nextId) = true <;> simp [h])
        (s.instances ++ [spawnInst env s params pid])
      rw [hins, hmap]
      exact hpd1
    | error e =>
      simp only [hw]
      rw [hins]
      exact hpd1

/-- Reachability by create and list operations from the initial manager,
each step guarded by the side conditions the operating environment actually
provides in the intended deployment: the uuid supply is collision-free and
fresh, and the launcher never hands back a pid that is still tracked. -/
inductive GReach : MState → Prop
  | init : GReach managerNew
  | step_list_none (s : MState) (env : Env) (h : GReach s) (hp : env.pgrep = none) :
      GReach (refresh_instances env s)
  | step_list (s : MState) (env : Env) (live : List Nat) (h : GReach s)
      (hp : env.pgrep = some live)
      (hinj : ∀ i j : Nat, i ≠ j → env.uuid i ≠ env.uuid j)
      (hfresh : FreshIds env s.instances s.nextId) :
      GReach (refresh_instances env s)
  | step_create (s : MState) (env : Env) (params : SpawnParams) (h : GReach s)
      (hpid : ∀ p, env.spawnPid = some p → ∀ e ∈ s.instances, e.pid ≠ p)
      (hid : ∀ e ∈ s.instances, e.id ≠ env.uuid s.nextId) :
      GReach ((spawn_instance env s params).2)

/-- Unrestricted reachability by create and list operations from the initial
manager: the environment (live pid set, launcher pid, uuid draws) is
arbitrary at every step. -/
inductive Reach : MState → Prop
  | init : Reach managerNew
  | step_list (s : MState) (env : Env) (h : Reach s) : Reach (refresh_instances env s)
  | step_create (s : MState) (env : Env) (params : SpawnParams) (h : Reach s) :
      Reach ((spawn_instance env s params).2)

/-- C4 (amended): in every registry state reachable by create and list
operations, no two tracked entries share a pid, provided every create is
handed a launcher pid that is not currently tracked and the uuid supply is
collision-free and fresh at each step; without the launcher-pid proviso the
invariant fails (see the counterexample). -/
theorem c4_pid_uniqueness_guarded : ∀ s : MState, GReach s → pidsDistinct s.instances = true := by
  intro s h
  induction h with
  | init => rfl
  | step_list_none s env h hp ih =>
    simp only [refresh_instances, hp]
    rfl
  | step_list s env live h hp hinj hfresh ih =>
    obtain ⟨new, hi, hn, hnew, hcov, hfr, hpd⟩ := refresh_spec env s live hp hinj hfresh
    exact hpd ih
  | step_create s env params h hpid hid ih =>
    exact spawn_preserves_distinct env s params hpid hid ih

theorem c4_witness : pidsDistinct managerNew.instances = true :=
  c4_pid_uniqueness_guarded managerNew GReach.init

/-- An environment whose launcher hands back pid 5 every time (the OS can
do this: the pid of a tracked entry whose process has already exited may be
recycled for the next launch). -/
def envDup : Env := { envW with spawnPid := some 5 }

/-- Spawn parameters with every field absent. -/
def paramsW : SpawnParams :=
  { command := none, args := none, working_directory := none, title := none }

/-- The registry state after two consecutive create operations both handed
pid 5 by the launcher. -/
def dupState : MState :=
  (spawn_instance envDup ((spawn_instance envDup managerNew paramsW).2) paramsW).2

/-- C4 counterexample: a state reachable by two create operations in which
two tracked entries (with distinct ids) share pid 5, refuting the claim
that no reachable registry state has two entries with the same pid. -/
theorem c4_counterexample : Reach dupState ∧ pidsDistinct dupState.instances = false := by
  constructor
  · exact Reach.step_create _ envDup paramsW (Reach.step_create _ envDup paramsW Reach.init)
  · rfl

/-- C10: the instance value returned by spawn_instance is the snapshot taken
before the post-launch window-discovery attempt: its window_id is always
none, and when the follow-up lookup succeeds the discovered handle is
stored only in the registry entry, observable through subsequent reads. -/
theorem c10_spawn_snapshot (env : Env) (s : MState) (params : SpawnParams)
    (inst : AlacrittyInstance) (h : (spawn_instance env s params).1 = some inst) :
    inst.window_id = none ∧
    (∀ w, env.findWindow inst.pid "Alacritty" = some w →
      { inst with window_id := some w } ∈ ((spawn_instance env s params).2).instances) := by
  cases hsp : env.spawnPid with
  | none => simp [spawn_instance, hsp] at h
  | some pid =>
    have h1 : (spawn_instance env s params).1 = some (spawnInst env s params pid) := by
      cases hw : get_window_id_for_instance env
          (insertInst s.instances (spawnInst env s params pid)) (env.uuid s.nextId) with
      | ok w => simp [spawn_instance, hsp, hw]
      | error e => simp [spawn_instance, hsp, hw]
    have hinst : inst = spawnInst env s params pid := (Option.some.inj (h1.symm.trans h)).symm
    subst hinst
    refine ⟨rfl, ?_⟩
    intro w hfw
    have hfw' : env.findWindow pid "Alacritty" = some w := hfw
    have hfind : (insertInst s.instances (spawnInst env s params pid)).find?
        (fun e => e.id == env.uuid s.nextId) = some (spawnInst env s params pid) :=
      find?_insertInst s.instances (spawnInst env s params pid)
    have hgwi : get_window_id_for_instance env
        (insertInst s.instances (spawnInst env s params pid)) (env.uuid s.nextId)
        = Except.ok w := by
      simp only [get_window_id_for_instance, hfind]
      have hwid : (spawnInst env s params pid).window_id = none := rfl
      rw [hwid]
      simp [get_window_id_for_pid, hfw]
    simp only [spawn_instance, hsp, hgwi]
    apply List.mem_map.mpr
    refine ⟨spawnInst env s params pid, self_mem_insertInst _ _, ?_⟩
    have hideq : ((spawnInst env s params pid).id == env.uuid s.nextId) = true := by
      simp [spawnInst]
    simp [hideq]

/-- An environment whose launcher hands back pid 5 and whose window
resolver always finds window 7. -/
def envWspawn : Env := { envW with spawnPid := some 5, findWindow := fun _ _ => some 7 }

theorem c10_witness :
    (spawnInst envWspawn managerNew paramsW 5).window_id = none ∧
    ({ spawnInst envWspawn managerNew paramsW 5 with window_id := some 7 }
       ∈ ((spawn_instance envWspawn managerNew paramsW).2).instances) := by
  have h := c10_spawn_snapshot envWspawn managerNew paramsW
    (spawnInst envWspawn managerNew paramsW 5) rfl
  exact ⟨h.1, h.2 7 rfl⟩

/-- C7 (amended): resolving a window handle returns the cached handle when
present without consulting the gateway (the result is the same for every
environment), performs a fresh gateway lookup keyed by the pid and the
Alacritty process-class filter when no handle is cached, fails with
InstanceNotFound for an untracked id and WindowNotFound when no window is
associated with the pid; the looked-up handle is returned but NOT cached:
the method borrows the registry immutably, so the registry after the call
is unchanged (caching happens only in the follow-up inside spawn). -/
theorem c7_resolve_window (env : Env) (r : List AlacrittyInstance) (instance_id : String) :
    (r.find? (fun e => e.id == instance_id) = none →
        get_window_id_for_instance env r instance_id
          = Except.error ("Instance not found: " ++ instance_id)) ∧
    (∀ inst, r.find? (fun e => e.id == instance_id) = some inst →
        (∀ w, inst.window_id = some w →
          ∀ env2 : Env, get_window_id_for_instance env2 r instance_id = Except.ok w) ∧
        (inst.window_id = none →
          (∀ w, env.findWindow inst.pid "Alacritty" = some w →
            get_window_id_for_instance env r instance_id = Except.ok w) ∧
          (env.findWindow inst.pid "Alacritty" = none →
            get_window_id_for_instance env r instance_id
              = Except.error ("Could not find window ID for PID " ++ toString inst.pid)))) ∧
    (resolveWindowPost env r instance_id).2 = r := by
  refine ⟨?_, ?_, rfl⟩
  · intro hf
    simp [get_window_id_for_instance, hf]
  · intro inst hf
    constructor
    · intro w hw env2
      simp [get_window_id_for_instance, hf, hw]
    · intro hn
      constructor
      · intro w hw
        simp [get_window_id_for_instance, hf, hn, get_window_id_for_pid, hw]
      · intro hw
        simp [get_window_id_for_instance, hf, hn, get_window_id_for_pid, hw]

/-- An environment whose window resolver always finds window 7. -/
def envWfind : Env := { envW with findWindow := fun _ _ => some 7 }

/-- A registry holding exactly instW (which has no cached handle). -/
def regW : List AlacrittyInstance := [instW]

/-- C7 counterexample: on a tracked instance with no cached handle, the
fresh lookup succeeds (window 7 is returned) yet the registry after the
call still holds the entry with window_id none: the claimed caching of the
result does not happen. -/
theorem c7_counterexample :
    (resolveWindowPost envWfind regW "").1 = Except.ok 7 ∧
    (resolveWindowPost envWfind regW "").2.find? (fun e => e.id == "") = some instW ∧
    instW.window_id = none :=
  ⟨rfl, rfl, rfl⟩

theorem c7_witness :
    get_window_id_for_instance envWfind regW "missing"
      = Except.error ("Instance not found: " ++ "missing") :=
  (c7_resolve_window envWfind regW "missing").1 rfl

theorem handle_request_tools_call (env : Env) (srv : McpSrv) (params : Option Json)
    (id : Option Json) :
    handle_request env srv ⟨"2.0", "tools/call", params, id⟩
      = handle_tools_call env srv params id := rfl

theorem handle_request_tools_list (env : Env) (srv : McpSrv) (params : Option Json)
    (id : Option Json) :
    handle_request env srv ⟨"2.0", "tools/list", params, id⟩
      = (handle_tools_list srv id, srv) := rfl

theorem handle_tools_list_uninit (srv : McpSrv) (id : Option Json)
    (h : srv.initialized = false) :
    handle_tools_list srv id = errResp (-32002) "Server not initialized" id := by
  unfold handle_tools_list
  rw [h]
  rfl

theorem handle_tools_list_ready (srv : McpSrv) (id : Option Json)
    (h : srv.initialized = true) :
    handle_tools_list srv id = okResp toolsListResult id := by
  unfold handle_tools_list
  rw [h]
  rfl

theorem handle_tools_call_uninit (env : Env) (srv : McpSrv) (params : Option Json)
    (id : Option Json) (h : srv.initialized = false) :
    handle_tools_call env srv params id = (errResp (-32002) "Server not initialized" id, srv) := by
  unfold handle_tools_call
  rw [h]
  rfl

theorem handle_tools_call_ready (env : Env) (srv : McpSrv) (params : Option Json)
    (id : Option Json) (h : srv.initialized = true) :
    handle_tools_call env srv params id =
      match params with
      | none => (errResp (-32602) "Missing call parameters" id, srv)
      | some call_params =>
        match (call_params.get "name").bind Json.asStr with
        | none => (errResp (-32602) "Missing tool name" id, srv)
        | some tool_name =>
          match dispatchTool env srv.manager tool_name
              ((call_params.get "arguments").getD (Json.obj [])) with
          | (Except.ok content, m2) =>
              (okResp (contentResult content) id, { srv with manager := m2 })
          | (Except.error e, m2) => (errResp (-32603) e id, { srv with manager := m2 }) := by
  unfold handle_tools_call
  rw [h]
  rfl

/-- After the handshake, every error a tools/call can produce carries code
-32602 (parameter extraction) or -32603 (the uniform wrapper around any
tool failure); in particular never the not-ready code. -/
theorem tools_call_error_codes (env : Env) (srv : McpSrv) (params : Option Json)
    (id : Option Json) (hinit : srv.initialized = true) (e : JsonRpcError)
    (he : (handle_tools_call env srv params id).1.error = some e) :
    e.code = -32602 ∨ e.code = -32603 := by
  rw [handle_tools_call_ready env srv params id hinit] at he
  cases params with
  | none =>
    simp only [errResp, Option.some.injEq] at he
    left
    rw [← he]
  | some cp =>
    have he' : (match (cp.get "name").bind Json.asStr with
        | none => (errResp (-32602) "Missing tool name" id, srv)
        | some tool_name =>
          match dispatchTool env srv.manager tool_name
              ((cp.get "arguments").getD (Json.obj [])) with
          | (Except.ok content, m2) =>
              (okResp (contentResult content) id, { srv with manager := m2 })
          | (Except.error e, m2) =>
              (errResp (-32603) e id, { srv with manager := m2 })).1.error = some e := he
    cases hname : (cp.get "name").bind Json.asStr with
    | none =>
      rw [hname] at he'
      simp only [errResp, Option.some.injEq] at he'
      left
      rw [← he']
    | some tn =>
      rw [hname] at he'
      have he'' : (match dispatchTool env srv.manager tn ((cp.get "arguments").getD (Json.obj [])) with
          | (Except.ok content, m2) =>
              (okResp (contentResult content) id, { srv with manager := m2 })
          | (Except.error e, m2) =>
              (errResp (-32603) e id, { srv with manager := m2 })).1.error = some e := he'
      rcases hd : dispatchTool env srv.manager tn ((cp.get "arguments").getD (Json.obj [])) with
        ⟨res, m2⟩
      rw [hd] at he''
      cases res with
      | ok c =>
        have h3 : (okResp (contentResult c) id).error = some e := he''
        simp [okResp] at h3
      | error msg =>
        have h3 : (errResp (-32603) msg id).error = some e := he''
        right
        simp only [errResp, Option.some.injEq] at h3
        rw [← h3]

/-- A well-formed handshake descriptor. -/
def validInitJson : Json :=
  Json.obj [("protocolVersion", Json.str "2024-11-05"), ("capabilities", Json.obj []),
            ("clientInfo", Json.obj [("name", Json.str "test-client"),
                                     ("version", Json.str "1.0.0")])]

/-- C1: tools/list and tools/call before a successful handshake both fail
with the not-ready code -32002 and leave the whole server state (manager
included) unchanged, so no tool ever executes while uninitialized; a
well-formed handshake flips the session flag; and once initialized,
tools/list succeeds with the catalogue, a well-formed tools/call of
list_instances succeeds, and no tools/call outcome ever carries -32002 (its
only failure codes are its own argument validation -32602 and the tool
wrapper -32603). -/
theorem c1_lifecycle_gating (env : Env) (srv : McpSrv) (params : Option Json) (id : Option Json) :
    (srv.initialized = false →
      handle_request env srv ⟨"2.0", "tools/list", params, id⟩
        = (errResp (-32002) "Server not initialized" id, srv) ∧
      handle_request env srv ⟨"2.0", "tools/call", params, id⟩
        = (errResp (-32002) "Server not initialized" id, srv)) ∧
    (handleInit srv (some validInitJson) id = (okResp initResult id, { srv with initialized := true })) ∧
    (srv.initialized = true →
      handle_request env srv ⟨"2.0", "tools/list", params, id⟩ = (okResp toolsListResult id, srv) ∧
      (handle_request env srv ⟨"2.0", "tools/call",
          some (Json.obj [("name", Json.str "list_instances")]), id⟩).1.error = none ∧
      (∀ e, (handle_request env srv ⟨"2.0", "tools/call", params, id⟩).1.error = some e →
        e.code ≠ -32002)) := by
  refine ⟨?_, rfl, ?_⟩
  · intro h
    constructor
    · rw [handle_request_tools_list, handle_tools_list_uninit srv id h]
    · rw [handle_request_tools_call, handle_tools_call_uninit env srv params id h]
  · intro h
    refine ⟨?_, ?_, ?_⟩
    · rw [handle_request_tools_list, handle_tools_list_ready srv id h]
    · rw [handle_request_tools_call, handle_tools_call_ready env srv _ id h]
      rfl
    · intro e he
      rw [handle_request_tools_call] at he
      rcases tools_call_error_codes env srv params id h e he with h1 | h1 <;>
        rw [h1] <;> decide

theorem c1_witness :
    handle_request envW serverNew ⟨"2.0", "tools/list", none, none⟩
      = (errResp (-32002) "Server not initialized" none, serverNew) :=
  ((c1_lifecycle_gating envW serverNew none none).1 rfl).1

/-- C5 (amended): an input line that fails to decode is answered with the
error envelope main.rs builds: code -32603 (the same numeric code as the
internal-error wrapper, so the parse-failure code is NOT distinct) and a
null correlation id; the loop state is unchanged and no crash occurs (the
handler is total). -/
theorem c5_parse_error_envelope (env : Env) (srv : McpSrv) :
    processLine env srv none
      = ({ jsonrpc := "2.0", result := none,
           error := some { code := -32603, message := "Invalid JSON-RPC request", data := none },
           id := none }, srv) := rfl

/-- C5 counterexample: the envelope written back for an undecodable line
carries code -32603 and a null id; -32603 differs from the claimed parse
error code -32700, refuting the claim as stated. -/
theorem c5_counterexample :
    (processLine envW serverNew none).1.id = none ∧
    ((processLine envW serverNew none).1.error.map (fun e => e.code)) = some (-32603) ∧
    ((-32603 : Int) ≠ -32700) :=
  ⟨rfl, rfl, by decide⟩

/-- The server in the Ready state with an empty registry. -/
def srvReady : McpSrv := { manager := managerNew, initialized := true }

/-- A Ready server whose registry holds exactly instW (pid 3, no cached
window handle). -/
def srv6 : McpSrv := { manager := { instances := [instW], nextId := 0 }, initialized := true }

/-- C6 (amended): a tools/call of send_keys with an empty arguments object
is rejected by serde argument deserialization before any registry operation
(the outcome is the same for every manager state, which is left unchanged),
but the failure is surfaced through the uniform tool-error wrapper with
code -32603, not with the invalid-params code -32602. The general
pre-validation clause fails: only the constraints the serde deserializer
itself checks are enforced up front; a screenshot_instance format outside
the declared text or image enum passes deserialization (format is an
optional string) and is validated only AFTER the registry lookup and the
window resolution, so with an enum-violating format the outcome still
depends on the registry (untracked id gives InstanceNotFound) and on the
gateway (an unresolvable window gives the window-lookup error), and only a
found instance with a resolved window reaches the Unsupported-format
rejection. -/
theorem c6_schema_rejection (env : Env) (srv : McpSrv) (id : Option Json)
    (hinit : srv.initialized = true) :
    (handle_request env srv ⟨"2.0", "tools/call",
        some (Json.obj [("name", Json.str "send_keys"), ("arguments", Json.obj [])]), id⟩
      = (errResp (-32603) "Invalid send keys parameters" id, srv)) ∧
    (∀ m : MState, dispatchTool env m "send_keys" (Json.obj [])
      = (Except.error "Invalid send keys parameters", m)) ∧
    (∀ fmt : String, fmt ≠ "text" → fmt ≠ "image" → ∀ iid : String,
      (srv.manager.instances.find? (fun e => e.id == iid) = none →
        handle_request env srv ⟨"2.0", "tools/call",
            some (Json.obj [("name", Json.str "screenshot_instance"),
              ("arguments", Json.obj [("instance_id", Json.str iid),
                ("format", Json.str fmt)])]), id⟩
          = (errResp (-32603) ("Instance not found: " ++ iid) id, srv)) ∧
      (∀ inst w, srv.manager.instances.find? (fun e => e.id == iid) = some inst →
        inst.window_id = some w →
        handle_request env srv ⟨"2.0", "tools/call",
            some (Json.obj [("name", Json.str "screenshot_instance"),
              ("arguments", Json.obj [("instance_id", Json.str iid),
                ("format", Json.str fmt)])]), id⟩
          = (errResp (-32603) ("Unsupported format: " ++ fmt) id, srv)) ∧
      (∀ inst w, srv.manager.instances.find? (fun e => e.id == iid) = some inst →
        inst.window_id = none → env.findWindow inst.pid "Alacritty" = some w →
        handle_request env srv ⟨"2.0", "tools/call",
            some (Json.obj [("name", Json.str "screenshot_instance"),
              ("arguments", Json.obj [("instance_id", Json.str iid),
                ("format", Json.str fmt)])]), id⟩
          = (errResp (-32603) ("Unsupported format: " ++ fmt) id, srv)) ∧
      (∀ inst, srv.manager.instances.find? (fun e => e.id == iid) = some inst →
        inst.window_id = none → env.findWindow inst.pid "Alacritty" = none →
        handle_request env srv ⟨"2.0", "tools/call",
            some (Json.obj [("name", Json.str "screenshot_instance"),
              ("arguments", Json.obj [("instance_id", Json.str iid),
                ("format", Json.str fmt)])]), id⟩
          = (errResp (-32603)
              ("Could not find window ID for PID " ++ toString inst.pid) id, srv))) := by
  refine ⟨?_, ?_, ?_⟩
  · rw [handle_request_tools_call, handle_tools_call_ready env srv _ id hinit]
    rfl
  · intro m
    rfl
  · intro fmt hft hfi iid
    refine ⟨?_, ?_, ?_, ?_⟩
    · intro hfind
      rw [handle_request_tools_call, handle_tools_call_ready env srv _ id hinit]
      simp [Json.get, jLookup, Json.asStr, dispatchTool, ScreenshotParams.fromJson?, reqStrField,
            optStrField, screenshot_instance, hfind]
    · intro inst w hfind hw
      rw [handle_request_tools_call, handle_tools_call_ready env srv _ id hinit]
      simp [Json.get, jLookup, Json.asStr, dispatchTool, ScreenshotParams.fromJson?, reqStrField,
            optStrField, screenshot_instance, hfind, hw, hft, hfi]
    · intro inst w hfind hw hfw
      rw [handle_request_tools_call, handle_tools_call_ready env srv _ id hinit]
      simp [Json.get, jLookup, Json.asStr, dispatchTool, ScreenshotParams.fromJson?, reqStrField,
            optStrField, screenshot_instance, get_window_id_for_instance, get_window_id_for_pid,
            hfind, hw, hfw, hft, hfi]
    · intro inst hfind hw hfw
      rw [handle_request_tools_call, handle_tools_call_ready env srv _ id hinit]
      simp [Json.get, jLookup, Json.asStr, dispatchTool, ScreenshotParams.fromJson?, reqStrField,
            optStrField, screenshot_instance, get_window_id_for_instance, get_window_id_for_pid,
            hfind, hw, hfw]

/-- C6 counterexample: (1) the error code for the schema-violating
send_keys call is -32603, not the claimed invalid-params code -32602; and
(2) the claim that every schema-violating payload is rejected before the
tool partially executes is false at the concrete enum-violating format
bogus of screenshot_instance: the very same bad-format payload produces
the InstanceNotFound error on an empty registry, the Unsupported-format
error on a registry holding instW when the gateway resolves a window (the
call went through the registry lookup and the window resolution before the
format was checked), and the window-lookup error on the same registry when
the gateway finds no window (the gateway failure preempts the schema
violation). -/
theorem c6_counterexample :
    (((handle_request envW srvReady ⟨"2.0", "tools/call",
        some (Json.obj [("name", Json.str "send_keys"), ("arguments", Json.obj [])]), none⟩).1.error.map
      (fun e => e.code)) = some (-32603) ∧ ((-32603 : Int) ≠ -32602)) ∧
    handle_request envW srvReady ⟨"2.0", "tools/call",
        some (Json.obj [("name", Json.str "screenshot_instance"),
          ("arguments", Json.obj [("instance_id", Json.str "does-not-exist"),
            ("format", Json.str "bogus")])]), none⟩
      = (errResp (-32603) ("Instance not found: " ++ "does-not-exist") none, srvReady) ∧
    handle_request envWfind srv6 ⟨"2.0", "tools/call",
        some (Json.obj [("name", Json.str "screenshot_instance"),
          ("arguments", Json.obj [("instance_id", Json.str ""),
            ("format", Json.str "bogus")])]), none⟩
      = (errResp (-32603) ("Unsupported format: " ++ "bogus") none, srv6) ∧
    handle_request envW srv6 ⟨"2.0", "tools/call",
        some (Json.obj [("name", Json.str "screenshot_instance"),
          ("arguments", Json.obj [("instance_id", Json.str ""),
            ("format", Json.str "bogus")])]), none⟩
      = (errResp (-32603) ("Could not find window ID for PID " ++ toString 3) none, srv6) :=
  ⟨⟨rfl, by decide⟩, rfl, rfl, rfl⟩

theorem c6_witness :
    handle_request envW srvReady ⟨"2.0", "tools/call",
        some (Json.obj [("name", Json.str "send_keys"), ("arguments", Json.obj [])]), none⟩
      = (errResp (-32603) "Invalid send keys parameters" none, srvReady) ∧
    handle_request envWfind srv6 ⟨"2.0", "tools/call",
        some (Json.obj [("name", Json.str "screenshot_instance"),
          ("arguments", Json.obj [("instance_id", Json.str ""),
            ("format", Json.str "bogus")])]), none⟩
      = (errResp (-32603) ("Unsupported format: " ++ "bogus") none, srv6) :=
  ⟨(c6_schema_rejection envW srvReady none rfl).1,
   ((c6_schema_rejection envWfind srv6 none rfl).2.2 "bogus" (by decide) (by decide) "").2.2.1
     instW 7 rfl rfl rfl⟩

/-- C8: any request whose method is outside the three known ones is
answered with method-not-found -32601 (with the method echoed in the
message) and the session state, whatever it is, is unchanged. -/
theorem c8_unknown_method (env : Env) (srv : McpSrv) (req : JsonRpcRequest)
    (h1 : req.method ≠ "initialize") (h2 : req.method ≠ "tools/list")
    (h3 : req.method ≠ "tools/call") :
    handle_request env srv req
      = (errResp (-32601) ("Method not found: " ++ req.method) req.id, srv) := by
  unfold handle_request
  rw [if_neg h1, if_neg h2, if_neg h3]

theorem c8_witness :
    handle_request envW serverNew
        { jsonrpc := "2.0", method := "nonexistent", params := none, id := none }
      = (errResp (-32601) ("Method not found: " ++ "nonexistent") none, serverNew) :=
  c8_unknown_method envW serverNew _ (by decide) (by decide) (by decide)

/-- C9: a tools/call of send_keys, screenshot_instance or get_neovim_context
naming an untracked instance id fails with an error whose message embeds
the literal offending id (the InstanceNotFound rendering), and the server
state (registry included) is unchanged, regardless of which tool triggered
the lookup. -/
theorem c9_instance_not_found (env : Env) (srv : McpSrv) (iid keys : String) (id : Option Json)
    (hinit : srv.initialized = true)
    (habs : ∀ e ∈ srv.manager.instances, e.id ≠ iid) :
    handle_request env srv ⟨"2.0", "tools/call",
        some (Json.obj [("name", Json.str "send_keys"),
          ("arguments", Json.obj [("instance_id", Json.str iid), ("keys", Json.str keys)])]), id⟩
      = (errResp (-32603) ("Instance not found: " ++ iid) id, srv) ∧
    handle_request env srv ⟨"2.0", "tools/call",
        some (Json.obj [("name", Json.str "screenshot_instance"),
          ("arguments", Json.obj [("instance_id", Json.str iid)])]), id⟩
      = (errResp (-32603) ("Instance not found: " ++ iid) id, srv) ∧
    handle_request env srv ⟨"2.0", "tools/call",
        some (Json.obj [("name", Json.str "get_neovim_context"),
          ("arguments", Json.obj [("instance_id", Json.str iid)])]), id⟩
      = (errResp (-32603) ("Instance not found: " ++ iid) id, srv) ∧
    (∃ pre post, "Instance not found: " ++ iid = pre ++ iid ++ post) := by
  have hfind : srv.manager.instances.find? (fun e => e.id == iid) = none := by
    rw [List.find?_eq_none]
    intro e he
    simpa using habs e he
  refine ⟨?_, ?_, ?_, ⟨"Instance not found: ", "", by simp⟩⟩
  · rw [handle_request_tools_call, handle_tools_call_ready env srv _ id hinit]
    simp [Json.get, jLookup, Json.asStr, dispatchTool, SendKeysParams.fromJson?, reqStrField,
          send_keys, hfind]
  · rw [handle_request_tools_call, handle_tools_call_ready env srv _ id hinit]
    simp [Json.get, jLookup, Json.asStr, dispatchTool, ScreenshotParams.fromJson?, reqStrField,
          optStrField, screenshot_instance, hfind]
  · rw [handle_request_tools_call, handle_tools_call_ready env srv _ id hinit]
    simp [Json.get, jLookup, Json.asStr, dispatchTool, NeovimContextParams.fromJson?, reqStrField,
          optBoolField, optNatField, get_neovim_context, hfind]

theorem c9_witness :
    handle_request envW srvReady ⟨"2.0", "tools/call",
        some (Json.obj [("name", Json.str "send_keys"),
          ("arguments", Json.obj [("instance_id", Json.str "does-not-exist"),
            ("keys", Json.str "ctrl+c")])]), none⟩
      = (errResp (-32603) ("Instance not found: " ++ "does-not-exist") none, srvReady) :=
  (c9_instance_not_found envW srvReady "does-not-exist" "ctrl+c" none rfl
    (fun e he => absurd he (List.not_mem_nil e))).1
